import Mathlib

/-!
Verification of the waste-classification backend (src/backend/app):
a shallow embedding of the prediction pipeline, its readiness gate,
the model loader/validator, and the two feature-extractor variants,
with theorems settling the specification claims.

Conventions of the embedding:
- Python floats are modelled as rationals; the floating square root used by
  numpy std is an abstract parameter of the image library.
- Fallible Python code (raising exceptions) is modelled with Except.
- External image kernels (OpenCV / skimage) are abstract parameters of the
  extractor, packaged in a structure together with the length contracts the
  library documents (a histogram with n requested bins has n entries).
-/

namespace WasteApp

deriving instance DecidableEq for Except

/-- Python str.upper for the ASCII strings used by the services. -/
def pyUpper (s : String) : String := String.mk (s.data.map Char.toUpper)

/-- Python str.replace of underscores by spaces, as used on class names. -/
def replaceUnderscore (s : String) : String :=
  String.mk (s.data.map (fun c => if c = '_' then ' ' else c))

/-- Python str.title: an alphabetic character is upper-cased when it follows a
non-alphabetic character and lower-cased otherwise. -/
def pyTitleAux : Bool → List Char → List Char
  | _, [] => []
  | prevAlpha, c :: cs =>
    if c.isAlpha then
      (if prevAlpha then c.toLower else c.toUpper) :: pyTitleAux true cs
    else
      c :: pyTitleAux false cs

/-- Python str.title on a string. -/
def pyTitle (s : String) : String := String.mk (pyTitleAux false s.data)

/-- Python dict.get with a default value, on an association list. -/
def lookupD (m : List (String × String)) (k d : String) : String :=
  match m.lookup k with
  | some v => v
  | none => d

/-- Helper for argmaxQ: fold keeping the first index of the maximum. -/
def argmaxGo (best : ℚ) (bestIdx cur : Nat) : List ℚ → Nat
  | [] => bestIdx
  | y :: ys => if best < y then argmaxGo y cur (cur + 1) ys else argmaxGo best bestIdx (cur + 1) ys

/-- numpy argmax on a rational vector: index of the first maximal entry
(0 on the empty vector). -/
def argmaxQ : List ℚ → Nat
  | [] => 0
  | x :: xs => argmaxGo x 0 1 xs

/-- numpy mean of a vector (0 on the empty vector, where numpy yields NaN). -/
def meanQ (xs : List ℚ) : ℚ := xs.sum / xs.length

/-- numpy var of a vector: mean squared deviation from the mean. -/
def varQ (xs : List ℚ) : ℚ := meanQ (xs.map (fun x => (x - meanQ xs) ^ 2))

/-- Fraction of strictly positive entries, as in np.sum(a > 0) / a.size. -/
def fracPos (xs : List ℚ) : ℚ :=
  ((xs.filter (fun x => decide (0 < x))).length : ℚ) / (xs.length : ℚ)

/-! ## Prediction service (src/backend/app/services/prediction_service.py) -/

/-- The raw value prediction[0] returned by the classifier: a numpy integer
class index or a string class label. -/
inductive RawPred where
  | intLabel (n : Nat)
  | strLabel (s : String)
  deriving DecidableEq, Repr

/-- The classifier stored under the model key of the artifact bundle.
hasPredictProba models hasattr(model, the predict_proba attribute);
predictRaw models model.predict(scaled)[0]; predictProbaRow models
model.predict_proba(scaled)[0]. -/
structure XGBModel where
  hasPredictProba : Bool
  predictRaw : List ℚ → RawPred
  predictProbaRow : List ℚ → List ℚ

/-- The pre-fitted scaler: transform on a single feature row. -/
structure Scaler where
  transformRow : List ℚ → List ℚ

/-- The label encoder: its ordered list of class names. -/
structure LabelEncoder where
  classes : List String

/-- The prediction service state built from the loaded model dictionary. -/
structure PredictionService where
  xgb_model : XGBModel
  scaler : Scaler
  label_encoder : LabelEncoder
  waste_map : List (String × String)
  threshold : ℚ

/-- Error kinds raised by PredictionService.predict: ValueError
(missing predict_proba) versus any other exception. -/
inductive PredictErr where
  | valueError (msg : String)
  | runtimeError (msg : String)
  deriving DecidableEq, Repr

/-- The record returned by PredictionService.predict. -/
structure PredictionResult where
  waste_class : String
  waste_type : String
  category : String
  confidence : ℚ
  probabilities : List ℚ
  deriving DecidableEq, Repr

/-- The ValueError message raised when the classifier lacks predict_proba. -/
def noProbaMsg : String :=
  "Model has no predict_proba method - cannot provide confidence"

/-- PredictionService.predict, line by line from the source: scale the row,
run the classifier, require predict_proba, take max probability times 100 as
confidence, resolve the raw prediction to an index (falling back to the argmax
index when a string label is not among the encoder classes), decode the class
name, map it to a category with the ANORGANIK default, remap B3 and UNKNOWN
to ANORGANIK, and format the display name. -/
def PredictionService.predict (svc : PredictionService) (features : List ℚ) :
    Except PredictErr PredictionResult :=
  let scaled := svc.scaler.transformRow features
  let prediction := svc.xgb_model.predictRaw scaled
  if svc.xgb_model.hasPredictProba = false then
    .error (.valueError noProbaMsg)
  else
    let probabilities := svc.xgb_model.predictProbaRow scaled
    match probabilities.max? with
    | none => .error (.runtimeError "zero-size array to reduction operation maximum")
    | some m =>
      let confidence := m * 100
      let pred_idx : Nat :=
        match prediction with
        | .intLabel n => n
        | .strLabel s =>
          match svc.label_encoder.classes.indexOf? s with
          | some i => i
          | none => argmaxQ probabilities
      match svc.label_encoder.classes.get? pred_idx with
      | none => .error (.runtimeError "inverse_transform index out of range")
      | some waste_class =>
        let category0 := lookupD svc.waste_map waste_class "ANORGANIK"
        let category :=
          if pyUpper category0 = "B3" ∨ pyUpper category0 = "UNKNOWN" then "ANORGANIK"
          else category0
        let waste_type := pyTitle (replaceUnderscore waste_class)
        .ok ⟨waste_class, waste_type, category, confidence, probabilities⟩

/-! ## Response formatting (predict.py, _format_lean_response) -/

/-- A single advisory tip: title and color code. -/
structure Tip where
  title : String
  color : String
  deriving DecidableEq, Repr

/-- The data field of the lean mobile response. -/
structure LeanData where
  wasteType : String
  category : String
  confidence : ℚ
  tips : List Tip
  descr : String
  deriving DecidableEq, Repr

/-- The lean response returned to the mobile client. -/
structure LeanResponse where
  success : Bool
  data : LeanData
  deriving DecidableEq, Repr

/-- Python round(x, 2): rounding to 2 decimal places. -/
def round2 (x : ℚ) : ℚ := ((round (x * 100) : ℤ) : ℚ) / 100

/-- The tips chosen for the organic category in _format_lean_response. -/
def organikTips : List Tip :=
  [⟨"Pisahkan dari sampah anorganik", "#10B981"⟩,
   ⟨"Buat kompos dari sisa makanan", "#4DB8AC"⟩,
   ⟨"Proses dalam 24 jam untuk menghindari bau", "#F59E0B"⟩]

/-- The tips chosen for the inorganic category in _format_lean_response. -/
def anorganikTips : List Tip :=
  [⟨"Bersihkan sebelum dibuang", "#4DB8AC"⟩,
   ⟨"Pisahkan plastik, kaca, dan logam", "#F59E0B"⟩,
   ⟨"Setorkan ke bank sampah terdekat", "#10B981"⟩]

/-- Models _format_lean_response from predict.py: pick the tips by category and round
the confidence to 2 decimals at this response boundary. -/
def format_lean_response (r : PredictionResult) : LeanResponse :=
  let tips := if pyUpper r.category = "ORGANIK" then organikTips else anorganikTips
  { success := true
    data :=
      { wasteType := r.waste_type
        category := "Sampah " ++ pyTitle r.category
        confidence := round2 r.confidence
        tips := tips
        descr := r.waste_type ++ " termasuk kategori Sampah " ++ pyTitle r.category } }

/-! ## Model service state and readiness (model_service.py, predict.py) -/

/-- The observable state of the ModelService singleton: whether self.model is
set and whether self.is_validated is true. -/
structure ModelServiceState where
  modelPresent : Bool
  isValidated : Bool
  deriving DecidableEq, Repr

/-- ModelService.is_loaded: model is not None AND is_validated. -/
def ModelServiceState.is_loaded (s : ModelServiceState) : Bool :=
  s.modelPresent && s.isValidated

/-- The module-level singletons consulted by the predict endpoint:
get_model_service() and get_prediction_service(), each possibly None. -/
structure AppState where
  modelService : Option ModelServiceState
  predictionService : Option PredictionService

/-- An HTTPException: status code and detail message. -/
structure HErr where
  status : Nat
  detail : String
  deriving DecidableEq, Repr

/-- The stages of the predict_waste endpoint, in execution order.
A stage is recorded in the trace when its block starts executing. -/
inductive Stage where
  | readiness
  | fileType
  | readBody
  | openImage
  | preprocessStage
  | predictStage
  | formatStage
  deriving DecidableEq, Repr

/-- Models _check_model_readiness from predict.py: 503 if the model service is not
initialized, if the model is not loaded-and-validated, or if the prediction
service is not initialized. -/
def check_model_readiness (app : AppState) : Except HErr Unit :=
  match app.modelService with
  | none => .error ⟨503, "Model service not initialized - server starting up"⟩
  | some ms =>
    if ms.is_loaded = false then
      .error ⟨503, "Model not ready - please wait for model to load"⟩
    else
      match app.predictionService with
      | none => .error ⟨503, "Prediction service not initialized - server starting up"⟩
      | some _ => .ok ()

/-- Validation constants of predict.py. -/
def MAX_FILE_SIZE : Nat := 10 * 1024 * 1024

/-- Minimum accepted image width/height. -/
def MIN_IMAGE_SIZE : Nat := 16

/-- Maximum accepted image width/height. -/
def MAX_IMAGE_SIZE : Nat := 4096

/-- The allowed_types set of the endpoint. -/
def allowed_types : List String :=
  ["image/jpeg", "image/png", "image/bmp", "image/webp", "application/octet-stream"]

/-- The dimensions reported by PIL Image.open on a decodable payload. -/
structure ImageInfo where
  width : Nat
  height : Nat
  deriving DecidableEq, Repr

/-- The numpy array returned by the image preprocessor, as observed by
_validate_features: shape, dtype flag, NaN/Inf flags, and the single row of
rational values handed to the prediction service. -/
structure RawFeatures where
  rows : Nat
  cols : Nat
  isFloat32 : Bool
  hasNaN : Bool
  hasInf : Bool
  row : List ℚ

/-- The request-independent collaborators of the endpoint: PIL decoding of the
body bytes and the image preprocessor. -/
structure PredictEnv where
  decode : List Nat → Option ImageInfo
  preprocess : ImageInfo → Except String RawFeatures

/-- An incoming upload: declared content type and body bytes. -/
structure Request where
  contentType : Option String
  contents : List Nat

/-- Models _validate_features from predict.py: reject wrong shape, wrong dtype,
NaN values, Inf values, in that order, each with a 500 error. -/
def validate_features (f : RawFeatures) : Except HErr Unit :=
  if (f.rows, f.cols) ≠ (1, 38) then
    .error ⟨500, "Invalid feature shape: expected (1, 38)"⟩
  else if f.isFloat32 = false then
    .error ⟨500, "Invalid feature dtype: expected float32"⟩
  else if f.hasNaN then
    .error ⟨500, "Features contain NaN values"⟩
  else if f.hasInf then
    .error ⟨500, "Features contain Inf values"⟩
  else
    .ok ()

/-- How the endpoint maps the outcome of PredictionService.predict to an HTTP
response: ValueError becomes a 500 Model error, any other exception a 500
prediction error, success is formatted with _format_lean_response. -/
def mapServiceResult : Except PredictErr PredictionResult → Except HErr LeanResponse
  | .error (.valueError m) => .error ⟨500, "Model error: " ++ m⟩
  | .error (.runtimeError m) => .error ⟨500, "Error saat prediksi: " ++ m⟩
  | .ok r => .ok (format_lean_response r)

/-- predict_waste from predict.py, with an explicit trace of the stages that
started executing: readiness gate first, then content-type validation, body
read and size checks, image decoding and dimension checks, preprocessing and
feature validation, prediction, and response formatting. -/
def predict_waste (app : AppState) (env : PredictEnv) (req : Request) :
    Except HErr LeanResponse × List Stage :=
  let t0 := [Stage.readiness]
  match check_model_readiness app with
  | .error e => (.error e, t0)
  | .ok () =>
    let t1 := t0 ++ [Stage.fileType]
    match req.contentType with
    | none => (.error ⟨400, "File harus berupa gambar"⟩, t1)
    | some ct =>
      if allowed_types.contains ct = false then
        (.error ⟨400, "Format file tidak didukung"⟩, t1)
      else
        let t2 := t1 ++ [Stage.readBody]
        if req.contents.length = 0 then
          (.error ⟨400, "File gambar kosong"⟩, t2)
        else if MAX_FILE_SIZE < req.contents.length then
          (.error ⟨400, "File terlalu besar (maksimal 10MB)"⟩, t2)
        else
          let t3 := t2 ++ [Stage.openImage]
          match env.decode req.contents with
          | none => (.error ⟨400, "File bukan gambar yang valid"⟩, t3)
          | some info =>
            if info.width < MIN_IMAGE_SIZE ∨ info.height < MIN_IMAGE_SIZE then
              (.error ⟨400, "Gambar terlalu kecil (minimal 16x16 pixels)"⟩, t3)
            else if MAX_IMAGE_SIZE < info.width ∨ MAX_IMAGE_SIZE < info.height then
              (.error ⟨400, "Gambar terlalu besar (maksimal 4096x4096 pixels)"⟩, t3)
            else
              let t4 := t3 ++ [Stage.preprocessStage]
              match env.preprocess info with
              | .error msg => (.error ⟨500, "Error preprocessing image: " ++ msg⟩, t4)
              | .ok feats =>
                match validate_features feats with
                | .error e => (.error e, t4)
                | .ok () =>
                  let t5 := t4 ++ [Stage.predictStage]
                  match app.predictionService with
                  | none => (.error ⟨500, "Error saat prediksi: service missing"⟩, t5)
                  | some svc =>
                    match mapServiceResult (svc.predict feats.row) with
                    | .error e => (.error e, t5)
                    | .ok resp => (.ok resp, t5 ++ [Stage.formatStage])

/-! ## Model artifact loader and validator (model_service.py, validate_model) -/

/-- The object stored under the required model key of the bundle, as seen by
the hasattr checks of validate_model and by the prediction service. -/
structure PyClassifier where
  hasPredict : Bool
  hasPredictProba : Bool
  deriving DecidableEq, Repr

/-- The object stored under the scaler key: hasattr transform. -/
structure PyScaler where
  hasTransform : Bool
  deriving DecidableEq, Repr

/-- The object stored under the label encoder key: hasattr of the
ordered class-name attribute. -/
structure PyEncoder where
  hasClasses : Bool
  deriving DecidableEq, Repr

/-- The object stored under the waste map key: whether it is a dict. -/
structure PyWasteMap where
  isDict : Bool
  deriving DecidableEq, Repr

/-- The deserialized artifact bundle, tracking the four required keys (each
possibly absent) plus whether any further keys are present (for the Python
truthiness test on the dict). -/
structure LoadedBundle where
  model : Option PyClassifier
  scaler : Option PyScaler
  label_encoder : Option PyEncoder
  waste_map : Option PyWasteMap
  otherKeys : Bool
  deriving DecidableEq, Repr

/-- The bundle dict is empty (Python falsy). -/
def LoadedBundle.isEmpty (b : LoadedBundle) : Bool :=
  b.model.isNone && b.scaler.isNone && b.label_encoder.isNone &&
    b.waste_map.isNone && !b.otherKeys

/-- ModelService.validate_model from model_service.py: reject a missing or
empty bundle, require the four keys, then check hasattr predict on the
classifier, hasattr transform on the scaler, the class-list attribute on the
label encoder, and dict-ness of the waste map. Note the classifier check is
hasattr predict only. -/
def validate_model (m : Option LoadedBundle) : Except String Unit :=
  match m with
  | none => .error "Model is not loaded"
  | some b =>
    if b.isEmpty then .error "Model is not loaded"
    else
      match b.model, b.scaler, b.label_encoder, b.waste_map with
      | some c, some s, some e, some w =>
        if c.hasPredict = false then .error "XGBoost model is invalid"
        else if s.hasTransform = false then .error "Scaler model is invalid"
        else if e.hasClasses = false then .error "Label encoder is invalid"
        else if w.isDict = false then .error "Waste map must be a dictionary"
        else .ok ()
      | _, _, _, _ => .error "Model is missing required components"

/-- The ModelServiceState after loading a bundle and running validate_model:
self.model is set when the bundle is present, and is_validated reflects the
validation outcome. -/
def stateAfterValidate (m : Option LoadedBundle) : ModelServiceState :=
  { modelPresent := m.isSome
    isValidated := match validate_model m with | .ok _ => true | .error _ => false }

/-! ## Image library and the feature extractors
(image_service.py and v2/image_preprocessor.py) -/

/-- An opaque token for a raw input accepted by _load_image_as_array. -/
structure ImageInput where
  tag : Nat
  deriving DecidableEq, Repr

/-- An opaque token for a decoded image array. -/
structure Img where
  tag : Nat
  deriving DecidableEq, Repr

/-- The five GLCM texture properties, in the order the source requests them. -/
inductive GLCMProp where
  | contrast
  | dissimilarity
  | homogeneity
  | energy
  | correlation
  deriving DecidableEq, Repr

/-- The external OpenCV / skimage kernels the extractors call, abstract up to
the length contracts the library documents: calcHist with n requested bins
returns n entries and normalize preserves length. loadImage models
_load_image_as_array (fallible decoding), fsqrt the floating square root used
by numpy std, pixels the flattened array of an image, channel one color
channel of an image. -/
structure CVLib where
  loadImage : ImageInput → Except String Img
  resizeImg : Img → Nat × Nat → Except String Img
  cvtColorGray : Img → Except String Img
  cvtColorHSV : Img → Except String Img
  calcHist : Img → Nat → Nat → List ℚ
  normalizeHist : List ℚ → List ℚ
  graycomatrix : Img → Img
  glcmProp : Img → GLCMProp → ℚ
  hogVec : Img → List ℚ
  canny : Img → Nat → Nat → Img
  laplacian : Img → Img
  thresholdBinary : Img → ℚ → ℚ → Img
  pixels : Img → List ℚ
  channel : Img → Nat → List ℚ
  fsqrt : ℚ → ℚ
  calcHist_length : ∀ i c n, (calcHist i c n).length = n
  normalizeHist_length : ∀ xs, (normalizeHist xs).length = xs.length

/-- numpy std: floating square root of the variance. -/
def stdQ (lib : CVLib) (xs : List ℚ) : ℚ := lib.fsqrt (varQ xs)

/-- Feature block 1 of extract_features: per-channel 8-bin HSV histograms,
each channel normalized independently, H then S then V. -/
def hsvHistBlock (lib : CVLib) (hsv : Img) : List ℚ :=
  lib.normalizeHist (lib.calcHist hsv 0 8) ++
    lib.normalizeHist (lib.calcHist hsv 1 8) ++
      lib.normalizeHist (lib.calcHist hsv 2 8)

/-- Feature block 2: the five GLCM texture statistics of the grayscale image,
in source order contrast, dissimilarity, homogeneity, energy, correlation. -/
def glcmBlock (lib : CVLib) (gray : Img) : List ℚ :=
  let g := lib.graycomatrix gray
  [lib.glcmProp g .contrast, lib.glcmProp g .dissimilarity, lib.glcmProp g .homogeneity,
   lib.glcmProp g .energy, lib.glcmProp g .correlation]

/-- Feature block 3: mean and standard deviation of the HOG descriptor. -/
def hogBlock (lib : CVLib) (gray : Img) : List ℚ :=
  let h := lib.hogVec gray
  [meanQ h, stdQ lib h]

/-- Feature block 4: mean, standard deviation, and edge-pixel fraction of the
Canny edge image with thresholds 50 and 150. -/
def cannyBlock (lib : CVLib) (gray : Img) : List ℚ :=
  let e := lib.pixels (lib.canny gray 50 150)
  [meanQ e, stdQ lib e, fracPos e]

/-- Feature block 5: variance and mean absolute value of the Laplacian. -/
def laplacianBlock (lib : CVLib) (gray : Img) : List ℚ :=
  let l := lib.pixels (lib.laplacian gray)
  [varQ l, meanQ (l.map (fun x => |x|))]

/-- Feature block 6: bright-pixel fraction above threshold 220 and the
intensity standard deviation of the grayscale image. -/
def highlightBlock (lib : CVLib) (gray : Img) : List ℚ :=
  let mask := lib.pixels (lib.thresholdBinary gray 220 255)
  [fracPos mask, stdQ lib (lib.pixels gray)]

/-- The ImagePreprocessor configuration of image_service.py. -/
structure ImagePreprocessor where
  target_size : Nat × Nat
  n_features : Nat
  deriving DecidableEq, Repr

/-- The preprocessor as constructed by the service: 128x128, 38 features. -/
def defaultPreprocessor : ImagePreprocessor := ⟨(128, 128), 38⟩

/-- ImagePreprocessor.extract_features from image_service.py: load, resize to
the target size, convert to grayscale and HSV, concatenate the six feature
blocks in source order, and reject a wrong feature count. The try/except of
the source re-raises every exception, so a failing step propagates as the
corresponding error. -/
def ImagePreprocessor.extract_features (p : ImagePreprocessor) (lib : CVLib)
    (input : ImageInput) : Except String (List ℚ) :=
  match lib.loadImage input with
  | .error e => .error e
  | .ok img0 =>
    match lib.resizeImg img0 p.target_size with
    | .error e => .error e
    | .ok img =>
      match lib.cvtColorGray img with
      | .error e => .error e
      | .ok gray =>
        match lib.cvtColorHSV img with
        | .error e => .error e
        | .ok hsv =>
          let features := hsvHistBlock lib hsv ++ glcmBlock lib gray ++
            hogBlock lib gray ++ cannyBlock lib gray ++
              laplacianBlock lib gray ++ highlightBlock lib gray
          if features.length ≠ p.n_features then
            .error ("Expected " ++ toString p.n_features ++ " features, got " ++
              toString features.length)
          else
            .ok features

/-- The try-block body of _extract_color_histogram_features in
v2/image_preprocessor.py: HSV conversion and per-channel 8-bin histograms,
then channel means and variances of the BGR image, grayscale conversion,
Canny edge density, and a trailing padding zero. -/
def bodyV2 (lib : CVLib) (img : Img) : Except String (List ℚ) :=
  match lib.cvtColorHSV img with
  | .error e => .error e
  | .ok hsv =>
    let h_hist := lib.normalizeHist (lib.calcHist hsv 0 8)
    let s_hist := lib.normalizeHist (lib.calcHist hsv 1 8)
    let v_hist := lib.normalizeHist (lib.calcHist hsv 2 8)
    let bMean := meanQ (lib.channel img 0)
    let gMean := meanQ (lib.channel img 1)
    let rMean := meanQ (lib.channel img 2)
    let bVar := varQ (lib.channel img 0)
    let gVar := varQ (lib.channel img 1)
    let rVar := varQ (lib.channel img 2)
    match lib.cvtColorGray img with
    | .error e => .error e
    | .ok gray =>
      let edges := lib.pixels (lib.canny gray 50 150)
      let edgeDensity := fracPos edges
      .ok (h_hist ++ s_hist ++ v_hist ++
        [bMean, gMean, rMean, bVar, gVar, rVar, edgeDensity, 0])

/-- Models _extract_color_histogram_features from v2/image_preprocessor.py: on any
exception inside the body, return a zero-filled 32-vector instead of
propagating; otherwise pad with zeros or truncate to exactly 32 entries. -/
def extractColorHistFeaturesV2 (lib : CVLib) (img : Img) : List ℚ :=
  match bodyV2 lib img with
  | .error _ => List.replicate 32 0
  | .ok fs =>
    if fs.length < 32 then fs ++ List.replicate (32 - fs.length) 0
    else fs.take 32

/-- ImagePreprocessorV2.extract_features from v2/image_preprocessor.py: load,
resize to 128x128, compute the (exception-swallowing) 32 histogram features,
and reject a wrong feature count; load and resize failures re-raise. -/
def extractFeaturesV2 (lib : CVLib) (input : ImageInput) : Except String (List ℚ) :=
  match lib.loadImage input with
  | .error e => .error e
  | .ok img0 =>
    match lib.resizeImg img0 (128, 128) with
    | .error e => .error e
    | .ok img =>
      let features := extractColorHistFeaturesV2 lib img
      if features.length ≠ 32 then
        .error ("Expected 32 features, got " ++ toString features.length)
      else
        .ok features

/-! ## Shared lemmas -/

/-- Inversion for a successful PredictionService.predict: the result record is
exactly the one assembled by the source, with confidence max times 100 and the
category produced by the lookup-with-default plus the B3/UNKNOWN remap. -/
theorem predict_ok_spec (svc : PredictionService) (f : List ℚ) (r : PredictionResult)
    (h : svc.predict f = .ok r) :
    svc.xgb_model.hasPredictProba = true ∧
    r.probabilities = svc.xgb_model.predictProbaRow (svc.scaler.transformRow f) ∧
    ∃ m, r.probabilities.max? = some m ∧ r.confidence = m * 100 ∧
      ∃ idx, svc.label_encoder.classes.get? idx = some r.waste_class ∧
        r.waste_type = pyTitle (replaceUnderscore r.waste_class) ∧
        r.category =
          (if pyUpper (lookupD svc.waste_map r.waste_class "ANORGANIK") = "B3" ∨
              pyUpper (lookupD svc.waste_map r.waste_class "ANORGANIK") = "UNKNOWN" then
            "ANORGANIK"
          else lookupD svc.waste_map r.waste_class "ANORGANIK") := by
  simp only [PredictionService.predict] at h
  split at h
  · exact Except.noConfusion h
  · rename_i hproba
    split at h
    · exact Except.noConfusion h
    · rename_i m hmax
      split at h
      · exact Except.noConfusion h
      · rename_i wc hwc
        cases h
        exact ⟨by simpa using hproba, rfl, m, hmax, rfl, _, hwc, rfl, rfl⟩

/-- A classifier without predict_proba makes PredictionService.predict raise
its ValueError before producing any result. -/
theorem predict_noProba (svc : PredictionService) (f : List ℚ)
    (h : svc.xgb_model.hasPredictProba = false) :
    svc.predict f = .error (.valueError noProbaMsg) := by
  unfold PredictionService.predict
  simp [h]

/-- Python round to 2 decimals stays within [0, 100] on inputs in [0, 100]. -/
theorem round2_bounds (x : ℚ) (h0 : 0 ≤ x) (h1 : x ≤ 100) :
    0 ≤ round2 x ∧ round2 x ≤ 100 := by
  have hfl : (0 : ℤ) ≤ round (x * 100) := by
    rw [round_eq]
    exact Int.le_floor.mpr (by push_cast; linarith)
  have hfu : round (x * 100) ≤ 10000 := by
    rw [round_eq]
    have hlt : ⌊x * 100 + 1 / 2⌋ < 10001 := Int.floor_lt.mpr (by push_cast; linarith)
    omega
  unfold round2
  constructor
  · apply div_nonneg _ (by norm_num)
    exact_mod_cast hfl
  · rw [div_le_iff₀ (by norm_num : (0 : ℚ) < 100)]
    calc ((round (x * 100) : ℤ) : ℚ) ≤ ((10000 : ℤ) : ℚ) := by exact_mod_cast hfu
    _ = 100 * 100 := by norm_num

/-! ## Claim C1 -/

/-- C1: whenever the model service is uninitialized, the model is not loaded
or not validated, or the prediction service is uninitialized, predict_waste
fails with a 503 not-ready error and the only stage that ran is the readiness
check, so no pipeline stage is ever reached; moreover the readiness signal
is_loaded is exactly model-present AND validated. -/
theorem claim_C1_readiness_gate (app : AppState) (env : PredictEnv) (req : Request)
    (h : app.modelService = none ∨
      (∃ ms, app.modelService = some ms ∧ ms.is_loaded = false) ∨
      app.predictionService = none) :
    (∃ d, (predict_waste app env req).1 = .error ⟨503, d⟩) ∧
    (predict_waste app env req).2 = [Stage.readiness] ∧
    (∀ ms : ModelServiceState, ms.is_loaded = (ms.modelPresent && ms.isValidated)) := by
  have hready : ∃ d, check_model_readiness app = .error ⟨503, d⟩ := by
    unfold check_model_readiness
    rcases h with h | ⟨ms, hms, hnl⟩ | h
    · rw [h]
      exact ⟨_, rfl⟩
    · rw [hms]
      refine ⟨"Model not ready - please wait for model to load", ?_⟩
      simp [hnl]
    · cases hms : app.modelService with
      | none => exact ⟨_, rfl⟩
      | some ms =>
        rw [h]
        cases hl : ms.is_loaded with
        | false =>
          refine ⟨"Model not ready - please wait for model to load", ?_⟩
          simp [hl]
        | true =>
          refine ⟨"Prediction service not initialized - server starting up", ?_⟩
          simp [hl]
  obtain ⟨d, hd⟩ := hready
  refine ⟨⟨d, ?_⟩, ?_, fun ms => rfl⟩ <;>
    simp [predict_waste, hd]

/-- Witness for C1 at an application state with no services initialized. -/
def emptyApp : AppState := ⟨none, none⟩

/-- A trivial endpoint environment for witnesses. -/
def trivEnv : PredictEnv := ⟨fun _ => none, fun _ => .error "no preprocessing"⟩

/-- A request with no content type and an empty body. -/
def emptyReq : Request := ⟨none, []⟩

theorem claim_C1_readiness_gate_witness :
    (∃ d, (predict_waste emptyApp trivEnv emptyReq).1 = .error ⟨503, d⟩) ∧
    (predict_waste emptyApp trivEnv emptyReq).2 = [Stage.readiness] ∧
    (∀ ms : ModelServiceState, ms.is_loaded = (ms.modelPresent && ms.isValidated)) :=
  claim_C1_readiness_gate emptyApp trivEnv emptyReq (Or.inl rfl)

/-! ## Claim C10 -/

/-- C10: the endpoint accepts exactly the five content types of its
allowed_types set; with the services ready, a request whose content type is
absent or outside the set gets a 400 error with only the readiness and
file-type stages run (the body is never read); and a request declared as
application/octet-stream passes the file-type check and, with a nonempty
in-size body, proceeds to the image-decoding stage. -/
theorem claim_C10_content_types (app : AppState) (env : PredictEnv) (req : Request)
    (hready : check_model_readiness app = .ok ()) :
    allowed_types =
      ["image/jpeg", "image/png", "image/bmp", "image/webp", "application/octet-stream"] ∧
    ((∀ ct, req.contentType = some ct → allowed_types.contains ct = false) →
      (∃ d, (predict_waste app env req).1 = .error ⟨400, d⟩) ∧
      (predict_waste app env req).2 = [Stage.readiness, Stage.fileType]) ∧
    (req.contentType = some "application/octet-stream" →
      req.contents.length ≠ 0 → req.contents.length ≤ MAX_FILE_SIZE →
      Stage.openImage ∈ (predict_waste app env req).2) := by
  refine ⟨rfl, ?_, ?_⟩
  · intro hct
    cases hcty : req.contentType with
    | none =>
      constructor
      · exact ⟨"File harus berupa gambar", by simp [predict_waste, hready, hcty]⟩
      · simp [predict_waste, hready, hcty]
    | some ct =>
      have hc : ct ∉ allowed_types := by simpa using hct ct hcty
      constructor
      · exact ⟨"Format file tidak didukung", by simp [predict_waste, hready, hcty, hc]⟩
      · simp [predict_waste, hready, hcty, hc]
  · intro hcty hlen hsize
    have hc : allowed_types.contains "application/octet-stream" = true := by decide
    have hsz : ¬ (MAX_FILE_SIZE < req.contents.length) := Nat.not_lt.mpr hsize
    simp only [predict_waste, hready, hcty, hc, Bool.true_eq_false, if_false, hlen,
      if_neg hsz, ite_false]
    split
    · simp
    · split
      · simp
      · split
        · simp
        · split
          · simp
          · split
            · simp
            · split
              · simp
              · split <;> simp

/-- A trivial classifier for witnesses: one class, probability vector [1]. -/
def trivXGB : XGBModel := ⟨true, fun _ => .intLabel 0, fun _ => [1]⟩

/-- A trivial prediction service for witnesses. -/
def trivSvc : PredictionService :=
  ⟨trivXGB, ⟨id⟩, ⟨["daun"]⟩, [("daun", "ORGANIK")], 3 / 5⟩

/-- An application state whose readiness check passes. -/
def readyApp : AppState := ⟨some ⟨true, true⟩, some trivSvc⟩

/-- A request with a disallowed content type. -/
def reqText : Request := ⟨some "text/plain", []⟩

/-- A request declared as an arbitrary binary upload. -/
def reqBin : Request := ⟨some "application/octet-stream", [1]⟩

theorem claim_C10_content_types_witness :
    ((∃ d, (predict_waste readyApp trivEnv reqText).1 = .error ⟨400, d⟩) ∧
      (predict_waste readyApp trivEnv reqText).2 = [Stage.readiness, Stage.fileType]) ∧
    Stage.openImage ∈ (predict_waste readyApp trivEnv reqBin).2 :=
  ⟨(claim_C10_content_types readyApp trivEnv reqText rfl).2.1
      (fun ct h => by cases h; decide),
   (claim_C10_content_types readyApp trivEnv reqBin rfl).2.2 rfl (by decide) (by decide)⟩

/-! ## Claim C4 -/

/-- C4: against a classifier without the predict-probabilities capability,
PredictionService.predict raises its ValueError and never returns a result
(so no fabricated confidence can be returned), and the endpoint surfaces this
as a 500 Model error response. -/
theorem claim_C4_no_proba_model_error :
    (∀ (svc : PredictionService) (f : List ℚ),
      svc.xgb_model.hasPredictProba = false →
      svc.predict f = .error (.valueError noProbaMsg) ∧ ∀ r, svc.predict f ≠ .ok r) ∧
    (∀ (app : AppState) (env : PredictEnv) (req : Request) (ms : ModelServiceState)
        (svc : PredictionService) (ct : String) (info : ImageInfo) (feats : RawFeatures),
      app.modelService = some ms → ms.is_loaded = true →
      app.predictionService = some svc →
      svc.xgb_model.hasPredictProba = false →
      req.contentType = some ct → ct ∈ allowed_types →
      req.contents ≠ [] → req.contents.length ≤ MAX_FILE_SIZE →
      env.decode req.contents = some info →
      MIN_IMAGE_SIZE ≤ info.width → MIN_IMAGE_SIZE ≤ info.height →
      info.width ≤ MAX_IMAGE_SIZE → info.height ≤ MAX_IMAGE_SIZE →
      env.preprocess info = .ok feats →
      validate_features feats = .ok () →
      (predict_waste app env req).1 = .error ⟨500, "Model error: " ++ noProbaMsg⟩) := by
  constructor
  · intro svc f h
    refine ⟨predict_noProba svc f h, fun r hr => ?_⟩
    rw [predict_noProba svc f h] at hr
    exact Except.noConfusion hr
  · intro app env req ms svc ct info feats hms hloaded hsvc hnp hcty hct hne hsize
      hdec hw1 hh1 hw2 hh2 hpre hval
    have hready : check_model_readiness app = .ok () := by
      unfold check_model_readiness
      rw [hms]
      simp [hloaded, hsvc]
    have hdim1 : ¬ (info.width < MIN_IMAGE_SIZE ∨ info.height < MIN_IMAGE_SIZE) := by omega
    have hdim2 : ¬ (MAX_IMAGE_SIZE < info.width ∨ MAX_IMAGE_SIZE < info.height) := by omega
    have hsz : ¬ (MAX_FILE_SIZE < req.contents.length) := Nat.not_lt.mpr hsize
    have hpredict := predict_noProba svc feats.row hnp
    simp [predict_waste, hready, hcty, hct, hne, hsz, hdec, hdim1, hdim2, hpre, hval,
      hsvc, hpredict, mapServiceResult]

/-- A prediction service whose classifier lacks predict_proba. -/
def svcNoProba : PredictionService :=
  ⟨⟨false, fun _ => .intLabel 0, fun _ => [1]⟩, ⟨id⟩, ⟨["daun"]⟩, [("daun", "ORGANIK")], 3 / 5⟩

/-- An application state serving the proba-less classifier. -/
def appNoProba : AppState := ⟨some ⟨true, true⟩, some svcNoProba⟩

/-- An environment whose decoding and preprocessing succeed with valid
38-entry float32 features. -/
def envOK : PredictEnv :=
  ⟨fun _ => some ⟨100, 100⟩, fun _ => .ok ⟨1, 38, true, false, false, List.replicate 38 0⟩⟩

theorem claim_C4_no_proba_model_error_witness :
    svcNoProba.predict (List.replicate 38 0) = .error (.valueError noProbaMsg) ∧
    (predict_waste appNoProba envOK reqBin).1 = .error ⟨500, "Model error: " ++ noProbaMsg⟩ :=
  ⟨(claim_C4_no_proba_model_error.1 svcNoProba (List.replicate 38 0) rfl).1,
   claim_C4_no_proba_model_error.2 appNoProba envOK reqBin ⟨true, true⟩ svcNoProba
     "application/octet-stream" ⟨100, 100⟩ ⟨1, 38, true, false, false, List.replicate 38 0⟩
     rfl rfl rfl rfl rfl (by decide) (by decide) (by decide) rfl (by decide) (by decide)
     (by decide) (by decide) rfl rfl⟩

/-! ## Claim C3 -/

/-- C3: a successful prediction carries confidence equal to the maximum of
the class-probability row times 100; rounding to 2 decimals happens only in
_format_lean_response; and when every probability lies in [0, 1] both the
raw and the formatted confidence lie in [0, 100]. -/
theorem claim_C3_confidence (svc : PredictionService) (f : List ℚ) (r : PredictionResult)
    (h : svc.predict f = .ok r) :
    (∃ m, r.probabilities.max? = some m ∧ r.confidence = m * 100) ∧
    r.probabilities = svc.xgb_model.predictProbaRow (svc.scaler.transformRow f) ∧
    (format_lean_response r).data.confidence = round2 r.confidence ∧
    ((∀ p ∈ r.probabilities, 0 ≤ p ∧ p ≤ 1) →
      (0 ≤ r.confidence ∧ r.confidence ≤ 100) ∧
      (0 ≤ (format_lean_response r).data.confidence ∧
        (format_lean_response r).data.confidence ≤ 100)) := by
  obtain ⟨-, hprob, m, hmax, hconf, -⟩ := predict_ok_spec svc f r h
  refine ⟨⟨m, hmax, hconf⟩, hprob, rfl, fun hbnd => ?_⟩
  have hmem : m ∈ r.probabilities := List.max?_mem (fun a b => max_choice a b) hmax
  obtain ⟨hm0, hm1⟩ := hbnd m hmem
  have h0 : 0 ≤ r.confidence := by rw [hconf]; positivity
  have h1 : r.confidence ≤ 100 := by rw [hconf]; linarith
  have hr := round2_bounds r.confidence h0 h1
  exact ⟨⟨h0, h1⟩, hr⟩

theorem claim_C3_confidence_witness :
    (∃ m, ([1] : List ℚ).max? = some m ∧ (1 * 100 : ℚ) = m * 100) ∧
    ([1] : List ℚ) = trivSvc.xgb_model.predictProbaRow
      (trivSvc.scaler.transformRow (List.replicate 38 0)) ∧
    (format_lean_response ⟨"daun", "Daun", "ORGANIK", 1 * 100, [1]⟩).data.confidence =
      round2 (1 * 100) ∧
    ((∀ p ∈ ([1] : List ℚ), 0 ≤ p ∧ p ≤ 1) →
      (0 ≤ (1 * 100 : ℚ) ∧ (1 * 100 : ℚ) ≤ 100) ∧
      (0 ≤ (format_lean_response ⟨"daun", "Daun", "ORGANIK", 1 * 100, [1]⟩).data.confidence ∧
        (format_lean_response ⟨"daun", "Daun", "ORGANIK", 1 * 100, [1]⟩).data.confidence ≤ 100)) :=
  claim_C3_confidence trivSvc (List.replicate 38 0) ⟨"daun", "Daun", "ORGANIK", 1 * 100, [1]⟩
    rfl

/-! ## Claim C2 -/

/-- A service whose category map carries a value outside the two coarse
categories (and outside B3/UNKNOWN). -/
def svcKaca : PredictionService :=
  ⟨⟨true, fun _ => .intLabel 0, fun _ => [1]⟩, ⟨id⟩, ⟨["kaca"]⟩, [("kaca", "KACA")], 3 / 5⟩

/-- C2 counterexample: the looked-up category value KACA is not one of the two
coarse categories, yet it is NOT remapped to the inorganic default: the
returned category field is KACA, so the category field is not confined to
ORGANIK/ANORGANIK as claimed. -/
theorem claim_C2_cex :
    svcKaca.predict (List.replicate 38 0) =
      .ok ⟨"kaca", "Kaca", "KACA", 1 * 100, [1]⟩ ∧
    ("KACA" : String) ≠ "ORGANIK" ∧ ("KACA" : String) ≠ "ANORGANIK" :=
  ⟨rfl, by decide, by decide⟩

/-- C2 amended: the missing-entry fallback is the inorganic default (never
organic), but only the literal values B3 and UNKNOWN (after upper-casing) are
forcibly remapped; any other looked-up category value is returned unchanged,
so the category field is confined to two values only when the map values are
drawn from ORGANIK, ANORGANIK, B3, UNKNOWN. -/
theorem claim_C2_amended (svc : PredictionService) (f : List ℚ) (r : PredictionResult)
    (h : svc.predict f = .ok r) :
    (svc.waste_map.lookup r.waste_class = none → r.category = "ANORGANIK") ∧
    (∀ v, svc.waste_map.lookup r.waste_class = some v →
      ((pyUpper v = "B3" ∨ pyUpper v = "UNKNOWN") → r.category = "ANORGANIK") ∧
      (¬ (pyUpper v = "B3" ∨ pyUpper v = "UNKNOWN") → r.category = v)) := by
  obtain ⟨-, -, m, -, -, idx, -, -, hcat⟩ := predict_ok_spec svc f r h
  constructor
  · intro hnone
    rw [hcat]
    unfold lookupD
    rw [hnone]
    decide
  · intro v hv
    constructor
    · intro hbu
      rw [hcat]
      unfold lookupD
      rw [hv, if_pos hbu]
    · intro hbu
      rw [hcat]
      unfold lookupD
      rw [hv, if_neg hbu]

theorem claim_C2_amended_witness :
    (trivSvc.waste_map.lookup "daun" = none → ("ORGANIK" : String) = "ANORGANIK") ∧
    (∀ v, trivSvc.waste_map.lookup "daun" = some v →
      ((pyUpper v = "B3" ∨ pyUpper v = "UNKNOWN") → ("ORGANIK" : String) = "ANORGANIK") ∧
      (¬ (pyUpper v = "B3" ∨ pyUpper v = "UNKNOWN") → ("ORGANIK" : String) = v)) :=
  claim_C2_amended trivSvc (List.replicate 38 0) ⟨"daun", "Daun", "ORGANIK", 1 * 100, [1]⟩ rfl

/-! ## Claim C8 -/

/-- A service whose classifier emits a string label that is not among the
label-encoder classes. -/
def svcMystery : PredictionService :=
  ⟨⟨true, fun _ => .strLabel "misteri", fun _ => [0, 1]⟩, ⟨id⟩,
    ⟨["abu", "botol"]⟩, [("botol", "ORGANIK")], 3 / 5⟩

/-- C8 counterexample: the predicted label misteri cannot be resolved through
the label encoder, yet predict does NOT surface an error: it substitutes the
index of the maximum probability (index 1) and returns a successful result
for class botol. -/
theorem claim_C8_cex :
    svcMystery.label_encoder.classes.indexOf? "misteri" = none ∧
    argmaxQ [0, 1] = 1 ∧
    svcMystery.predict (List.replicate 38 0) =
      .ok ⟨"botol", "Botol", "ORGANIK", max 0 1 * 100, [0, 1]⟩ :=
  ⟨rfl, by decide, rfl⟩

/-- C8 amended: when the raw classifier prediction is a string label absent
from the label-encoder classes, predict substitutes the argmax-probability
index: if that index is in range the request succeeds with the class at that
index (no error is surfaced); only an out-of-range index yields an error. -/
theorem claim_C8_amended (svc : PredictionService) (f : List ℚ) (s : String) (m : ℚ)
    (hp : svc.xgb_model.hasPredictProba = true)
    (hraw : svc.xgb_model.predictRaw (svc.scaler.transformRow f) = .strLabel s)
    (hidx : svc.label_encoder.classes.indexOf? s = none)
    (hmax : (svc.xgb_model.predictProbaRow (svc.scaler.transformRow f)).max? = some m) :
    (∀ c, svc.label_encoder.classes.get?
        (argmaxQ (svc.xgb_model.predictProbaRow (svc.scaler.transformRow f))) = some c →
      ∃ r, svc.predict f = .ok r ∧ r.waste_class = c) ∧
    (svc.label_encoder.classes.get?
        (argmaxQ (svc.xgb_model.predictProbaRow (svc.scaler.transformRow f))) = none →
      ∃ msg, svc.predict f = .error (.runtimeError msg)) := by
  constructor
  · intro c hc
    refine ⟨⟨c, pyTitle (replaceUnderscore c),
      (if pyUpper (lookupD svc.waste_map c "ANORGANIK") = "B3" ∨
          pyUpper (lookupD svc.waste_map c "ANORGANIK") = "UNKNOWN" then "ANORGANIK"
        else lookupD svc.waste_map c "ANORGANIK"), m * 100,
      svc.xgb_model.predictProbaRow (svc.scaler.transformRow f)⟩, ?_, rfl⟩
    simp only [List.get?_eq_getElem?] at hc
    simp [PredictionService.predict, hp, hraw, hidx, hmax, hc]
  · intro hc
    refine ⟨"inverse_transform index out of range", ?_⟩
    simp only [List.get?_eq_getElem?] at hc
    simp [PredictionService.predict, hp, hraw, hidx, hmax, hc]

theorem claim_C8_amended_witness :
    ∃ r, svcMystery.predict (List.replicate 38 0) = .ok r ∧ r.waste_class = "botol" :=
  (claim_C8_amended svcMystery (List.replicate 38 0) "misteri" (max 0 1)
    rfl rfl rfl rfl).1 "botol" rfl

/-! ## Claim C5 -/

/-- A loaded bundle whose classifier has predict but lacks predict_proba,
with all other components capable. -/
def bundleNoProba : LoadedBundle :=
  ⟨some ⟨true, false⟩, some ⟨true⟩, some ⟨true⟩, some ⟨true⟩, false⟩

/-- C5 counterexample: a bundle whose classifier lacks the
predict-probabilities capability passes validate_model (which checks only
predict), so the artifact reaches the validated state and the readiness
signal becomes true, contrary to the claim that load validation fails. -/
theorem claim_C5_cex :
    bundleNoProba.model = some ⟨true, false⟩ ∧
    validate_model (some bundleNoProba) = .ok () ∧
    (stateAfterValidate (some bundleNoProba)).is_loaded = true :=
  ⟨rfl, rfl, rfl⟩

/-- C5 amended: validate_model checks only the predict capability of the
classifier (plus scaler transform, encoder class list, waste-map dict-ness),
so any bundle meeting those checks validates and turns the readiness signal
on regardless of predict_proba; the missing predict-probabilities capability
is discovered only at prediction-request time, where predict raises its
ValueError. -/
theorem claim_C5_amended :
    (∀ (c : PyClassifier) (sc : PyScaler) (e : PyEncoder) (w : PyWasteMap),
      c.hasPredict = true → sc.hasTransform = true → e.hasClasses = true → w.isDict = true →
      validate_model (some ⟨some c, some sc, some e, some w, false⟩) = .ok () ∧
      (stateAfterValidate (some ⟨some c, some sc, some e, some w, false⟩)).is_loaded = true) ∧
    (∀ (svc : PredictionService) (f : List ℚ),
      svc.xgb_model.hasPredictProba = false →
      svc.predict f = .error (.valueError noProbaMsg)) := by
  constructor
  · intro c sc e w hc hsc he hw
    have hv : validate_model (some ⟨some c, some sc, some e, some w, false⟩) = .ok () := by
      simp [validate_model, LoadedBundle.isEmpty, hc, hsc, he, hw]
    refine ⟨hv, ?_⟩
    simp [stateAfterValidate, hv, ModelServiceState.is_loaded]
  · exact fun svc f h => predict_noProba svc f h

theorem claim_C5_amended_witness :
    (validate_model (some ⟨some ⟨true, false⟩, some ⟨true⟩, some ⟨true⟩, some ⟨true⟩, false⟩) =
        .ok () ∧
      (stateAfterValidate
        (some ⟨some ⟨true, false⟩, some ⟨true⟩, some ⟨true⟩, some ⟨true⟩, false⟩)).is_loaded =
        true) ∧
    svcNoProba.predict (List.replicate 38 0) = .error (.valueError noProbaMsg) :=
  ⟨claim_C5_amended.1 ⟨true, false⟩ ⟨true⟩ ⟨true⟩ ⟨true⟩ rfl rfl rfl rfl,
   claim_C5_amended.2 svcNoProba (List.replicate 38 0) rfl⟩

/-! ## Claim C6 -/

/-- The HSV histogram block has 24 entries: three independently normalized
8-bin channel histograms. -/
theorem hsvHistBlock_length (lib : CVLib) (hsv : Img) :
    (hsvHistBlock lib hsv).length = 24 := by
  simp [hsvHistBlock, lib.normalizeHist_length, lib.calcHist_length]

/-- The full variant-B feature vector always has 38 entries. -/
theorem featuresB_length (lib : CVLib) (gray hsv : Img) :
    (hsvHistBlock lib hsv ++ glcmBlock lib gray ++ hogBlock lib gray ++
      cannyBlock lib gray ++ laplacianBlock lib gray ++ highlightBlock lib gray).length = 38 := by
  simp [hsvHistBlock_length, glcmBlock, hogBlock, cannyBlock, laplacianBlock, highlightBlock]

/-- C6: a successful variant-B extraction returns exactly 38 values, composed
in order of the 24 HSV histogram values (8 bins per channel, each channel
normalized independently), the 5 GLCM statistics (contrast, dissimilarity,
homogeneity, energy, correlation), the 2 HOG statistics (mean, std), the
3 Canny statistics (mean, std, edge fraction), the 2 Laplacian statistics
(variance, mean absolute value), and the 2 highlight statistics (bright
fraction, intensity std); in the rational embedding every entry is a finite
value, and _validate_features separately rejects any NaN/Inf-flagged array
(claim C6 last clause). -/
theorem claim_C6_variant_b_layout (lib : CVLib) (input : ImageInput) (v : List ℚ)
    (h : defaultPreprocessor.extract_features lib input = .ok v) :
    (v.length = 38 ∧
      ∃ img gray hsv,
        lib.cvtColorGray img = .ok gray ∧
        lib.cvtColorHSV img = .ok hsv ∧
        v = hsvHistBlock lib hsv ++ glcmBlock lib gray ++ hogBlock lib gray ++
          cannyBlock lib gray ++ laplacianBlock lib gray ++ highlightBlock lib gray ∧
        (hsvHistBlock lib hsv).length = 24 ∧
        (glcmBlock lib gray).length = 5 ∧
        (hogBlock lib gray).length = 2 ∧
        (cannyBlock lib gray).length = 3 ∧
        (laplacianBlock lib gray).length = 2 ∧
        (highlightBlock lib gray).length = 2) ∧
    (∀ f : RawFeatures, validate_features f = .ok () →
      f.hasNaN = false ∧ f.hasInf = false) := by
  constructor
  · unfold ImagePreprocessor.extract_features at h
    split at h
    · exact Except.noConfusion h
    · rename_i img0 hload
      split at h
      · exact Except.noConfusion h
      · rename_i img hresize
        split at h
        · exact Except.noConfusion h
        · rename_i gray hgray
          split at h
          · exact Except.noConfusion h
          · rename_i hsv hhsv
            simp only [ne_eq] at h
            split at h
            · exact Except.noConfusion h
            · cases h
              exact ⟨featuresB_length lib gray hsv, img, gray, hsv, hgray, hhsv, rfl,
                hsvHistBlock_length lib hsv, rfl, rfl, rfl, rfl, rfl⟩
  · intro f hf
    unfold validate_features at hf
    split at hf
    · exact Except.noConfusion hf
    · split at hf
      · exact Except.noConfusion hf
      · split at hf
        · exact Except.noConfusion hf
        · split at hf
          · exact Except.noConfusion hf
          · rename_i hshape hdtype hnan hinf
            exact ⟨by simpa using hnan, by simpa using hinf⟩

/-- A trivial image library for witnesses: every kernel total and constant,
satisfying the length contracts. -/
def trivLib : CVLib where
  loadImage := fun _ => .ok ⟨0⟩
  resizeImg := fun i _ => .ok i
  cvtColorGray := fun i => .ok i
  cvtColorHSV := fun i => .ok i
  calcHist := fun _ _ n => List.replicate n 0
  normalizeHist := fun xs => xs
  graycomatrix := fun i => i
  glcmProp := fun _ _ => 0
  hogVec := fun _ => [0]
  canny := fun i _ _ => i
  laplacian := fun i => i
  thresholdBinary := fun i _ _ => i
  pixels := fun _ => [0]
  channel := fun _ _ => [0]
  fsqrt := fun _ => 0
  calcHist_length := fun _ _ n => by simp
  normalizeHist_length := fun _ => rfl

theorem claim_C6_variant_b_layout_witness :
    ((hsvHistBlock trivLib ⟨0⟩ ++ glcmBlock trivLib ⟨0⟩ ++ hogBlock trivLib ⟨0⟩ ++
        cannyBlock trivLib ⟨0⟩ ++ laplacianBlock trivLib ⟨0⟩ ++
          highlightBlock trivLib ⟨0⟩).length = 38 ∧
      ∃ img gray hsv,
        trivLib.cvtColorGray img = .ok gray ∧
        trivLib.cvtColorHSV img = .ok hsv ∧
        (hsvHistBlock trivLib ⟨0⟩ ++ glcmBlock trivLib ⟨0⟩ ++ hogBlock trivLib ⟨0⟩ ++
          cannyBlock trivLib ⟨0⟩ ++ laplacianBlock trivLib ⟨0⟩ ++
            highlightBlock trivLib ⟨0⟩) =
          hsvHistBlock trivLib hsv ++ glcmBlock trivLib gray ++ hogBlock trivLib gray ++
            cannyBlock trivLib gray ++ laplacianBlock trivLib gray ++
              highlightBlock trivLib gray ∧
        (hsvHistBlock trivLib hsv).length = 24 ∧
        (glcmBlock trivLib gray).length = 5 ∧
        (hogBlock trivLib gray).length = 2 ∧
        (cannyBlock trivLib gray).length = 3 ∧
        (laplacianBlock trivLib gray).length = 2 ∧
        (highlightBlock trivLib gray).length = 2) ∧
    (∀ f : RawFeatures, validate_features f = .ok () →
      f.hasNaN = false ∧ f.hasInf = false) :=
  claim_C6_variant_b_layout trivLib ⟨0⟩ _ rfl

/-! ## Claim C7 -/

/-- A library whose HSV color conversion fails, everything else trivial:
exercises the except clause of the v2 histogram extractor. -/
def cexLib : CVLib where
  loadImage := fun _ => .ok ⟨0⟩
  resizeImg := fun i _ => .ok i
  cvtColorGray := fun i => .ok i
  cvtColorHSV := fun _ => .error "cvtColor failed"
  calcHist := fun _ _ n => List.replicate n 0
  normalizeHist := fun xs => xs
  graycomatrix := fun i => i
  glcmProp := fun _ _ => 0
  hogVec := fun _ => [0]
  canny := fun i _ _ => i
  laplacian := fun i => i
  thresholdBinary := fun i _ _ => i
  pixels := fun _ => [0]
  channel := fun _ _ => [0]
  fsqrt := fun _ => 0
  calcHist_length := fun _ _ n => by simp
  normalizeHist_length := fun _ => rfl

/-- A library whose image decoding fails. -/
def failLib : CVLib where
  loadImage := fun _ => .error "decode failed"
  resizeImg := fun i _ => .ok i
  cvtColorGray := fun i => .ok i
  cvtColorHSV := fun i => .ok i
  calcHist := fun _ _ n => List.replicate n 0
  normalizeHist := fun xs => xs
  graycomatrix := fun i => i
  glcmProp := fun _ _ => 0
  hogVec := fun _ => [0]
  canny := fun i _ _ => i
  laplacian := fun i => i
  thresholdBinary := fun i _ _ => i
  pixels := fun _ => [0]
  channel := fun _ _ => [0]
  fsqrt := fun _ => 0
  calcHist_length := fun _ _ n => by simp
  normalizeHist_length := fun _ => rfl

/-- C7 counterexample: with a failing color conversion, the v2 extractor does
NOT propagate the processing error: _extract_color_histogram_features catches
the exception and extract_features returns a zero-filled 32-vector. -/
theorem claim_C7_cex :
    cexLib.cvtColorHSV ⟨0⟩ = .error "cvtColor failed" ∧
    bodyV2 cexLib ⟨0⟩ = .error "cvtColor failed" ∧
    extractFeaturesV2 cexLib ⟨0⟩ = .ok (List.replicate 32 0) :=
  ⟨rfl, rfl, rfl⟩

/-- C7 amended: decode and resize failures propagate from both extractor
variants, and in variant B a grayscale or HSV conversion failure also
propagates; but in variant V2 a failure inside the color-histogram sub-step
(for example the HSV conversion) is swallowed and a zero-filled 32-vector is
returned successfully instead of an error. -/
theorem claim_C7_amended :
    (∀ (lib : CVLib) (input : ImageInput) (e : String),
      lib.loadImage input = .error e →
      defaultPreprocessor.extract_features lib input = .error e ∧
      extractFeaturesV2 lib input = .error e) ∧
    (∀ (lib : CVLib) (input : ImageInput) (img0 : Img) (e : String),
      lib.loadImage input = .ok img0 →
      lib.resizeImg img0 (128, 128) = .error e →
      defaultPreprocessor.extract_features lib input = .error e ∧
      extractFeaturesV2 lib input = .error e) ∧
    (∀ (lib : CVLib) (input : ImageInput) (img0 img : Img) (e : String),
      lib.loadImage input = .ok img0 →
      lib.resizeImg img0 (128, 128) = .ok img →
      (lib.cvtColorGray img = .error e →
        defaultPreprocessor.extract_features lib input = .error e) ∧
      (∀ gray, lib.cvtColorGray img = .ok gray → lib.cvtColorHSV img = .error e →
        defaultPreprocessor.extract_features lib input = .error e) ∧
      (bodyV2 lib img = .error e →
        extractFeaturesV2 lib input = .ok (List.replicate 32 0))) := by
  refine ⟨?_, ?_, ?_⟩
  · intro lib input e hload
    constructor
    · simp [ImagePreprocessor.extract_features, hload]
    · simp [extractFeaturesV2, hload]
  · intro lib input img0 e hload hresize
    constructor
    · simp [ImagePreprocessor.extract_features, hload, defaultPreprocessor, hresize]
    · simp [extractFeaturesV2, hload, hresize]
  · intro lib input img0 img e hload hresize
    refine ⟨?_, ?_, ?_⟩
    · intro hgray
      simp [ImagePreprocessor.extract_features, hload, defaultPreprocessor, hresize, hgray]
    · intro gray hgray hhsv
      simp [ImagePreprocessor.extract_features, hload, defaultPreprocessor, hresize, hgray, hhsv]
    · intro hbody
      simp [extractFeaturesV2, hload, hresize, extractColorHistFeaturesV2, hbody]

theorem claim_C7_amended_witness :
    (defaultPreprocessor.extract_features failLib ⟨0⟩ = .error "decode failed" ∧
      extractFeaturesV2 failLib ⟨0⟩ = .error "decode failed") ∧
    extractFeaturesV2 cexLib ⟨0⟩ = .ok (List.replicate 32 0) :=
  ⟨claim_C7_amended.1 failLib ⟨0⟩ "decode failed" rfl,
   (claim_C7_amended.2.2 cexLib ⟨0⟩ ⟨0⟩ ⟨0⟩ "cvtColor failed" rfl rfl).2.2 rfl⟩

/-! ## Claim C9 -/

/-- C9: variant-B feature extraction is deterministic: it is a pure function
of the preprocessor configuration, the image-library kernels, and the input,
so two runs with equal configuration on the same input return identical
vectors (exact equality in the rational embedding; the source consults no
other state). -/
theorem claim_C9_deterministic (p1 p2 : ImagePreprocessor) (lib : CVLib)
    (input : ImageInput)
    (hts : p1.target_size = p2.target_size) (hnf : p1.n_features = p2.n_features) :
    p1.extract_features lib input = p2.extract_features lib input := by
  cases p1
  cases p2
  cases hts
  cases hnf
  rfl

theorem claim_C9_deterministic_witness :
    defaultPreprocessor.extract_features trivLib ⟨0⟩ =
      defaultPreprocessor.extract_features trivLib ⟨0⟩ :=
  claim_C9_deterministic defaultPreprocessor defaultPreprocessor trivLib ⟨0⟩ rfl rfl

end WasteApp
